import Mathlib

/-!
Shallow embedding of the Blender remote-render add-on (src/renderer-ui.py).

The add-on is a single Python module.  The embedding below translates, from
the source, the pieces of state and the operations that the verified claims
are about:

* the job record (`RemoteRenderJob`, a bpy PropertyGroup) and the session
  settings (`ServerIntegratedSettings`);
* the job-submission request builder (`submit_render_job`), which picks one
  of two endpoints and payload shapes from the quality preset;
* the upload helper (`upload_file`), whose try/except/finally structure is
  modelled by an explicit file-store state plus a response environment;
* the notification helpers (`show_completion_notification`,
  `show_failure_notification`), modelled with an explicit environment for
  the optional plyer module (absent, working, or raising on delivery);
* one iteration of the polling loop of `monitor_job`
  (`monitor_job_tick`), with Python exception points made explicit, and the
  loop itself (`monitor_job_run`) driven by a list of environments;
* the UI mutations on the job list: removal of one job, removal of all
  completed jobs, and the clearing of the notification badge on download.

JSON values are modelled by an inductive type; JSON numbers are modelled as
integers (no claim involves fractional values).  Machine integers do not
occur: Python integers are unbounded and the only bounded quantity, the
progress percentage, is clamped by the bpy IntProperty range [0, 100].
-/

/-- JSON values as delivered by response.json(). -/
inductive JsonValue where
  | nullv
  | bool (b : Bool)
  | int (n : Int)
  | str (s : String)
  | obj (fields : List (String × JsonValue))
  | arr (elems : List JsonValue)

/-- Lookup in a JSON object, i.e. Python dict.get(key): JSON objects have
unique keys, so taking the first binding is faithful. -/
def dictGet (fields : List (String × JsonValue)) (key : String) : Option JsonValue :=
  (fields.find? (fun kv => kv.1 == key)).map (fun kv => kv.2)

/-- Python int(x) on a JSON value: ints pass through, booleans coerce,
numeric strings parse, everything else raises (None result). -/
def jsonToInt : JsonValue → Option Int
  | .int n => some n
  | .bool b => some (if b then 1 else 0)
  | .str s => s.toInt?
  | _ => none

/-- Python truthiness of a JSON value. -/
def jsonTruthy : JsonValue → Bool
  | .nullv => false
  | .bool b => b
  | .int n => n != 0
  | .str s => s != ""
  | .obj fields => !fields.isEmpty
  | .arr elems => !elems.isEmpty

/-- The string payload of a JSON value, if it is a string. -/
def jsonStr? : JsonValue → Option String
  | .str s => some s
  | _ => none

/-- The key list of a JSON object. -/
def objKeys : JsonValue → Option (List String)
  | .obj fields => some (fields.map (fun kv => kv.1))
  | _ => none

/-- Well-formedness of the errorMessage field of a status body: absent, a
string, or a falsy value.  A truthy non-string value would raise on
assignment to the StringProperty. -/
def errFieldOk : Option JsonValue → Prop
  | none => True
  | some (.str _) => True
  | some v => jsonTruthy v = false

/-- The error_message field after the conditional assignment of the loop
body: a truthy (nonempty) string overwrites the previous value, everything
else keeps it. -/
def errMsgAfter (old : String) : Option JsonValue → String
  | some (.str s) => if s != "" then s else old
  | _ => old

/-- class RemoteRenderJob(PropertyGroup): field defaults are the bpy
property defaults (status "SUBMITTED", progress 0, is_complete False,
has_notification True, error_message ""). -/
structure RemoteRenderJob where
  job_id : String := ""
  scene_name : String := ""
  submitted_time : String := ""
  status : String := "SUBMITTED"
  progress : Int := 0
  is_complete : Bool := false
  has_notification : Bool := true
  error_message : String := ""
deriving DecidableEq

/-- The quality preset EnumProperty items of ServerIntegratedSettings. -/
inductive RenderQuality where
  | CUSTOM
  | FAST
  | HIGH
deriving DecidableEq

/-- The identifier string of a quality preset item. -/
def qualityName : RenderQuality → String
  | .CUSTOM => "CUSTOM"
  | .FAST => "FAST"
  | .HIGH => "HIGH"

/-- class ServerIntegratedSettings(PropertyGroup), with the bpy property
defaults from the source. -/
structure ServerIntegratedSettings where
  server_url : String := "http://localhost:8080"
  start_frame : Int := 1
  end_frame : Int := 1
  jobs : List RemoteRenderJob := []
  show_notifications : Bool := true
  render_quality : RenderQuality := .FAST
  server_status : String := "Unknown"
  last_check : String := ""

/-- The render-relevant scene state read by submit_render_job
(scene.render.resolution_x/y, scene.render.engine, scene.cycles.samples). -/
structure SceneRenderInfo where
  resolution_x : Int := 1920
  resolution_y : Int := 1080
  engine : String := "CYCLES"
  cycles_samples : Int := 128
deriving DecidableEq

/-- submit_render_job (request construction): from the quality preset the
method picks an endpoint and a payload shape and POSTs the payload there.
The function returns the (endpoint, payload) pair of that POST; the
upload_result argument is the parsed JSON object of the upload response. -/
def submit_render_job (settings : ServerIntegratedSettings) (scene : SceneRenderInfo)
    (upload_result : List (String × JsonValue)) (scene_name : String) :
    String × JsonValue :=
  if settings.render_quality = RenderQuality.FAST ∨ settings.render_quality = RenderQuality.HIGH then
    (settings.server_url ++ "/api/presets/render",
     JsonValue.obj [
       ("fileName", (dictGet upload_result "fileName").getD (.str "unknown.blend")),
       ("quality", .str (qualityName settings.render_quality)),
       ("startFrame", .int settings.start_frame),
       ("endFrame", .int settings.end_frame),
       ("resolutionX", .int scene.resolution_x),
       ("resolutionY", .int scene.resolution_y),
       ("outputFormat", .str "PNG"),
       ("description", .str ("Blender render job from " ++ scene_name ++ " (" ++
          qualityName settings.render_quality ++ " quality)"))])
  else
    (settings.server_url ++ "/api/jobs",
     JsonValue.obj [
       ("fileName", (dictGet upload_result "fileName").getD (.str "unknown.blend")),
       ("renderSettings", JsonValue.obj [
         ("startFrame", .int settings.start_frame),
         ("endFrame", .int settings.end_frame),
         ("resolutionX", .int scene.resolution_x),
         ("resolutionY", .int scene.resolution_y),
         ("samples", if scene.engine = "CYCLES" then .int scene.cycles_samples else .nullv),
         ("outputFormat", .str "PNG"),
         ("renderEngine", .str scene.engine),
         ("deviceType", .str "AUTO")]),
       ("description", .str ("Blender render job from " ++ scene_name))])

/-- The preset payload shape of the /api/presets/render endpoint. -/
def isPresetPayload (v : JsonValue) : Prop :=
  objKeys v = some ["fileName", "quality", "startFrame", "endFrame",
    "resolutionX", "resolutionY", "outputFormat", "description"] ∧
  dictGet (match v with | .obj fields => fields | _ => []) "outputFormat" =
    some (.str "PNG")

/-- The custom payload shape of the /api/jobs endpoint: it carries the
renderSettings object. -/
def isCustomPayload (v : JsonValue) : Prop :=
  objKeys v = some ["fileName", "renderSettings", "description"]

/-- The environment of one upload attempt: either the file read or the POST
raised, or a response with a status code arrived whose body either parses
as JSON or does not (response.json() raising). -/
inductive UploadResponse where
  | raised
  | resp (code : Nat) (body : Option JsonValue)

/-- os.remove(path): a file system holds each path once, so deletion is
modelled as dropping the path from the store. -/
def fsRemove (fs : List String) (path : String) : List String :=
  fs.filter (fun q => !(q == path))

/-- upload_file(server_url, file_path): opens the file (raising if it does
not exist, in which case no request is made), POSTs it, returns the parsed
JSON on status 200 or 201 and None otherwise; every exception is caught and
yields None; the finally block deletes the file when it still exists.  The
file system is the list of existing paths; the result is the returned value
paired with the file system after the call. -/
def upload_file (fs : List String) (file_path : String) (r : UploadResponse) :
    Option JsonValue × List String :=
  if file_path ∈ fs then
    (match r with
     | .raised => none
     | .resp code body? =>
       if code = 200 ∨ code = 201 then body? else none,
     fsRemove fs file_path)
  else
    (none, fs)

/-- The state of the optional plyer dependency when a notification helper
runs: importable and delivering, not importable (ImportError), or
importable but raising from notification.notify. -/
inductive PlyerOutcome where
  | ok
  | unavailable
  | deliveryError
deriving DecidableEq

/-- A user-visible notification effect: a desktop notification or a message
deferred into the Blender interface. -/
inductive NotifyEffect where
  | desktop (title message : String)
  | blenderMsg (level message : String)
deriving DecidableEq

/-- show_blender_notification(level, message): registers a timer whose
callback reports in the interface and swallows its own failures, so the
helper itself produces the effect and never raises. -/
def show_blender_notification (level message : String) : NotifyEffect :=
  .blenderMsg level message

/-- show_completion_notification(scene_name): tries plyer, catching only
ImportError (falling back to the in-Blender message); any other exception
from the delivery call propagates to the caller (.error). -/
def show_completion_notification (scene_name : String) (pl : PlyerOutcome) :
    Except Unit (List NotifyEffect) :=
  match pl with
  | .ok => .ok [.desktop "Render Complete! 🎉"
      ("Scene \x27" ++ scene_name ++ "\x27 has finished rendering")]
  | .unavailable => .ok [show_blender_notification "INFO"
      ("🎉 Render Complete: " ++ scene_name)]
  | .deliveryError => .error ()

/-- show_failure_notification(scene_name, error_message): same structure as
the completion helper, with the error message truncated to 50 characters. -/
def show_failure_notification (scene_name error_message : String) (pl : PlyerOutcome) :
    Except Unit (List NotifyEffect) :=
  match pl with
  | .ok => .ok [.desktop "Render Failed ❌"
      ("Scene \x27" ++ scene_name ++ "\x27 failed: " ++ error_message.take 50 ++ "...")]
  | .unavailable => .ok [show_blender_notification "ERROR"
      ("❌ Render Failed: " ++ scene_name ++ " - " ++ error_message.take 50)]
  | .deliveryError => .error ()

/-- How the loop body of monitor_job sleeps before the next iteration:
time.sleep(5) at the end of the try block, time.sleep(10) in the except
handler. -/
inductive SleepKind where
  | normal
  | backoff
deriving DecidableEq

/-- Whether one iteration of the monitor loop breaks out or goes round
again after one of the two sleeps. -/
inductive TickOutcome where
  | stopped
  | continued (s : SleepKind)
deriving DecidableEq

/-- How the record-update part of a tick ended: an exception was raised
(caught by the handler), the status was terminal and the loop breaks, or
the status was not terminal and the loop continues normally. -/
inductive ApplyOut where
  | raised
  | terminal (effects : List NotifyEffect)
  | nonterminal

/-- The bpy IntProperty of progress has min=0, max=100, so assignment
clamps. -/
def clampProgress (n : Int) : Int :=
  max 0 (min 100 n)

/-- The first job of the list with the given id, as the for loop of
monitor_job finds it. -/
def findJob (jobs : List RemoteRenderJob) (job_id : String) : Option RemoteRenderJob :=
  jobs.find? (fun j => j.job_id == job_id)

/-- In-place mutation of the first job with the given id, as Python
mutation of the object found by the for loop. -/
def updateFirst (jobs : List RemoteRenderJob) (job_id : String)
    (f : RemoteRenderJob → RemoteRenderJob) : List RemoteRenderJob :=
  match jobs with
  | [] => []
  | j :: rest =>
    if j.job_id == job_id then f j :: rest
    else j :: updateFirst rest job_id f

/-- The terminal branch at the end of a successful poll body: on a terminal
status the completion and notification flags are set, then the matching
notification helper runs (the completion one only when desktop
notifications are enabled), then the loop breaks; an exception from the
helper is caught by the loop handler after the flags were already set. -/
def finishTick (show_notifications : Bool) (pl : PlyerOutcome) (new_status : String)
    (job : RemoteRenderJob) : RemoteRenderJob × ApplyOut :=
  if new_status = "COMPLETED" ∨ new_status = "FAILED" then
    let job' := { job with is_complete := true, has_notification := true }
    if new_status = "COMPLETED" ∧ show_notifications then
      match show_completion_notification job'.scene_name pl with
      | .ok effects => (job', .terminal effects)
      | .error _ => (job', .raised)
    else if new_status = "FAILED" then
      match show_failure_notification job'.scene_name job'.error_message pl with
      | .ok effects => (job', .terminal effects)
      | .error _ => (job', .raised)
    else
      (job', .terminal [])
  else
    (job, .nonterminal)

/-- The record update of one tick on a 200 response with parsed body: the
exact statement order of the source, with each Python exception point made
explicit (a non-dict body, a non-string status value, an unparsable
progress value, and a truthy non-string errorMessage all raise; the record
keeps every field assigned before the raise). -/
def tickApply (show_notifications : Bool) (pl : PlyerOutcome)
    (job : RemoteRenderJob) (body : JsonValue) : RemoteRenderJob × ApplyOut :=
  match body with
  | .obj fields =>
    match (dictGet fields "status").getD (.str "UNKNOWN") with
    | .str new_status =>
      let job1 := { job with status := new_status }
      match jsonToInt ((dictGet fields "progress").getD (.int 0)) with
      | some p =>
        let job2 := { job1 with progress := clampProgress p }
        match dictGet fields "errorMessage" with
        | some v =>
          if jsonTruthy v then
            match v with
            | .str s => finishTick show_notifications pl new_status
                { job2 with error_message := s }
            | _ => (job2, .raised)
          else finishTick show_notifications pl new_status job2
        | none => finishTick show_notifications pl new_status job2
      | none => (job1, .raised)
    | _ => (job, .raised)
  | _ => (job, .raised)

/-- What the poll GET produced: the request raised (connection error or
timeout), or a response arrived whose body parses or not. -/
inductive PollResponse where
  | netError
  | resp (code : Nat) (body : Option JsonValue)

/-- The observable result of one iteration of the monitor loop. -/
structure TickResult where
  jobs : List RemoteRenderJob
  outcome : TickOutcome
  requested : Bool
  notifications : List NotifyEffect

/-- One iteration of the while loop of monitor_job: look up the live job by
id (break without a request when it is gone), GET the status endpoint, and
on a 200 response run the record update; every exception is caught by the
handler that sleeps 10 seconds, all other continuing paths sleep 5
seconds. -/
def monitor_job_tick (s : ServerIntegratedSettings) (job_id : String)
    (r : PollResponse) (pl : PlyerOutcome) : TickResult :=
  match findJob s.jobs job_id with
  | none => ⟨s.jobs, .stopped, false, []⟩
  | some job =>
    match r with
    | .netError => ⟨s.jobs, .continued .backoff, true, []⟩
    | .resp code body? =>
      if code = 200 then
        match body? with
        | none => ⟨s.jobs, .continued .backoff, true, []⟩
        | some body =>
          match tickApply s.show_notifications pl job body with
          | (job', .raised) =>
            ⟨updateFirst s.jobs job_id (fun _ => job'), .continued .backoff, true, []⟩
          | (job', .terminal effects) =>
            ⟨updateFirst s.jobs job_id (fun _ => job'), .stopped, true, effects⟩
          | (job', .nonterminal) =>
            ⟨updateFirst s.jobs job_id (fun _ => job'), .continued .normal, true, []⟩
      else ⟨s.jobs, .continued .normal, true, []⟩

/-- The environment one iteration of the monitor loop runs against. -/
structure PollEnv where
  response : PollResponse
  plyer : PlyerOutcome

/-- The monitor loop of monitor_job, driven by a finite list of per-tick
environments: it runs ticks until one breaks (or the environment list is
exhausted), accumulating the notification effects. -/
def monitor_job_run (job_id : String) :
    ServerIntegratedSettings → List PollEnv → List RemoteRenderJob × List NotifyEffect
  | s, [] => (s.jobs, [])
  | s, e :: es =>
    let t := monitor_job_tick s job_id e.response e.plyer
    match t.outcome with
    | .stopped => (t.jobs, t.notifications)
    | .continued _ =>
      let rest := monitor_job_run job_id { s with jobs := t.jobs } es
      (rest.1, t.notifications ++ rest.2)

/-- INTEGRATED_OT_clear_job.execute: settings.jobs.remove(job_index). -/
def clear_job (jobs : List RemoteRenderJob) (job_index : Nat) : List RemoteRenderJob :=
  jobs.eraseIdx job_index

/-- The descending index loop of INTEGRATED_OT_clear_all_jobs.execute:
for i in range(len(jobs) - 1, -1, -1): if jobs[i].is_complete: remove(i).
The argument after the list is the number of indices still to visit; the
out-of-range guard never fires on the entry call. -/
def clearAllGo : List RemoteRenderJob → Nat → List RemoteRenderJob
  | jobs, 0 => jobs
  | jobs, i + 1 =>
    let jobs' :=
      match jobs[i]? with
      | some j => if j.is_complete then jobs.eraseIdx i else jobs
      | none => jobs
    clearAllGo jobs' i

/-- INTEGRATED_OT_clear_all_jobs.execute on the job list. -/
def clear_all_jobs (jobs : List RemoteRenderJob) : List RemoteRenderJob :=
  clearAllGo jobs jobs.length

/-- The record created by a successful submission in
INTEGRATED_OT_submit_render.execute: settings.jobs.add() appends a record
with the property defaults, then job_id, scene_name, submitted_time and
status are assigned. -/
def newJobFromSubmit (result_id : Option String) (scene_name submitted_time : String) :
    RemoteRenderJob :=
  { job_id := result_id.getD "unknown", scene_name := scene_name,
    submitted_time := submitted_time, status := "SUBMITTED" }

/-- The job-list effect of a successful submission. -/
def submit_adds_job (jobs : List RemoteRenderJob) (result_id : Option String)
    (scene_name submitted_time : String) : List RemoteRenderJob :=
  jobs ++ [newJobFromSubmit result_id scene_name submitted_time]

/-- The new-jobs badge count of draw_jobs_section:
sum(1 for job in settings.jobs if job.has_notification). -/
def new_count (jobs : List RemoteRenderJob) : Nat :=
  (jobs.filter (fun j => j.has_notification)).length

/-- The badge-clearing loop of INTEGRATED_OT_download_job.execute: the
first job with the downloaded id gets has_notification = False. -/
def download_clear_badge (jobs : List RemoteRenderJob) (job_id : String) :
    List RemoteRenderJob :=
  updateFirst jobs job_id (fun j => { j with has_notification := false })

/-- The completion invariant of the specification, both directions. -/
def fullInv (j : RemoteRenderJob) : Prop :=
  j.is_complete = true ↔ (j.status = "COMPLETED" ∨ j.status = "FAILED")

/-- The forward direction of the completion invariant. -/
def fwdInv (j : RemoteRenderJob) : Prop :=
  j.is_complete = true → (j.status = "COMPLETED" ∨ j.status = "FAILED")

instance (j : RemoteRenderJob) : Decidable (fullInv j) := by
  unfold fullInv
  infer_instance

instance (j : RemoteRenderJob) : Decidable (fwdInv j) := by
  unfold fwdInv
  infer_instance

/-- The descending removal loop visits indices i-1, ..., 0 of the current
list and removes the completed entries; since removal at an index only
shifts later entries, the part below the cursor is filtered and the part
above is already final. -/
theorem clearAllGo_eq_filter (i : Nat) :
    ∀ jobs : List RemoteRenderJob, i ≤ jobs.length →
      clearAllGo jobs i =
        (jobs.take i).filter (fun j => !j.is_complete) ++ jobs.drop i := by
  induction i with
  | zero => intro jobs _; simp [clearAllGo]
  | succ i ih =>
    intro jobs h
    have hi : i < jobs.length := h
    rw [clearAllGo]
    simp only [List.getElem?_eq_getElem hi]
    rw [← List.take_concat_get jobs i hi, List.concat_eq_append, List.filter_append]
    cases hc : jobs[i].is_complete
    case false =>
      rw [if_neg (by simp)]
      rw [ih _ (le_of_lt hi), List.drop_eq_getElem_cons hi]
      simp [hc]
    case true =>
      rw [if_pos rfl]
      have hlen : i ≤ (jobs.eraseIdx i).length := by
        have := List.length_eraseIdx_add_one hi
        omega
      rw [ih _ hlen, List.eraseIdx_eq_take_drop_succ]
      have htake : i ≤ (List.take i jobs).length := by
        rw [List.length_take]
        omega
      rw [List.take_append_of_le_length htake, List.drop_append_of_le_length htake,
        List.take_take]
      have hnil : List.drop i (List.take i jobs) = [] :=
        List.drop_eq_nil_of_le (by rw [List.length_take]; omega)
      rw [hnil]
      simp [hc]

/-- The one-pass removal loop equals a filter on the completion flag. -/
theorem clear_all_jobs_eq_filter (jobs : List RemoteRenderJob) :
    clear_all_jobs jobs = jobs.filter (fun j => !j.is_complete) := by
  rw [clear_all_jobs, clearAllGo_eq_filter jobs.length jobs le_rfl]
  simp

/-- Every element of the store after an in-place mutation of the first
match either was already there or is the image of an element. -/
theorem mem_updateFirst {jobs : List RemoteRenderJob} {job_id : String}
    {f : RemoteRenderJob → RemoteRenderJob} {j : RemoteRenderJob}
    (h : j ∈ updateFirst jobs job_id f) :
    j ∈ jobs ∨ ∃ j0, j0 ∈ jobs ∧ j = f j0 := by
  induction jobs with
  | nil => simp [updateFirst] at h
  | cons a rest ih =>
    rw [updateFirst] at h
    by_cases ha : (a.job_id == job_id) = true
    · rw [if_pos ha] at h
      rcases List.mem_cons.mp h with h1 | h1
      · exact Or.inr ⟨a, List.mem_cons_self a rest, h1⟩
      · exact Or.inl (List.mem_cons_of_mem a h1)
    · rw [if_neg ha] at h
      rcases List.mem_cons.mp h with h1 | h1
      · exact Or.inl (h1 ▸ List.mem_cons_self a rest)
      · rcases ih h1 with h2 | ⟨j0, hj0, hj⟩
        · exact Or.inl (List.mem_cons_of_mem a h2)
        · exact Or.inr ⟨j0, List.mem_cons_of_mem a hj0, hj⟩

/-- Looking up the id after mutating the first match finds the mutated
record, provided the mutation kept the id. -/
theorem findJob_updateFirst {jobs : List RemoteRenderJob} {job_id : String}
    {f : RemoteRenderJob → RemoteRenderJob} {j : RemoteRenderJob}
    (h : findJob jobs job_id = some j) (hf : (f j).job_id = j.job_id) :
    findJob (updateFirst jobs job_id f) job_id = some (f j) := by
  induction jobs with
  | nil => simp [findJob] at h
  | cons a rest ih =>
    by_cases ha : (a.job_id == job_id) = true
    · rw [findJob, List.find?_cons_of_pos rest ha] at h
      injection h with h
      subst h
      rw [updateFirst, if_pos ha, findJob]
      exact List.find?_cons_of_pos rest (by rw [hf]; exact ha)
    · rw [findJob, List.find?_cons_of_neg rest ha] at h
      rw [updateFirst, if_neg ha, findJob,
        List.find?_cons_of_neg (updateFirst rest job_id f) ha]
      exact ih h

/-- Overwriting the found record with itself leaves the store unchanged,
i.e. a tick that raised before any assignment mutates nothing. -/
theorem updateFirst_found_id {jobs : List RemoteRenderJob} {job_id : String}
    {job : RemoteRenderJob} (h : findJob jobs job_id = some job) :
    updateFirst jobs job_id (fun _ => job) = jobs := by
  induction jobs with
  | nil => simp [findJob] at h
  | cons a rest ih =>
    by_cases ha : (a.job_id == job_id) = true
    · rw [findJob, List.find?_cons_of_pos rest ha] at h
      injection h with h
      rw [updateFirst, if_pos ha, h]
    · rw [findJob, List.find?_cons_of_neg rest ha] at h
      rw [updateFirst, if_neg ha, ih h]

/-- Behaviour of the terminal branch relative to the record the tick
started from, when notification delivery does not itself raise: it never
raises, a nonterminal status leaves the record as given, and a terminal
status sets the completion flag with the terminal status in place. -/
theorem finishTick_case (sh : Bool) (pl : PlyerOutcome) (st : String)
    (job jobMut : RemoteRenderJob) (hpl : pl ≠ PlyerOutcome.deliveryError)
    (hst : jobMut.status = st) (hic : jobMut.is_complete = job.is_complete)
    (hid : jobMut.job_id = job.job_id) :
    (finishTick sh pl st jobMut).1.job_id = job.job_id ∧
    ((finishTick sh pl st jobMut).2 = ApplyOut.raised →
      (finishTick sh pl st jobMut).1.is_complete = job.is_complete) ∧
    ((finishTick sh pl st jobMut).2 = ApplyOut.nonterminal →
      (finishTick sh pl st jobMut).1.is_complete = job.is_complete) ∧
    (∀ effects, (finishTick sh pl st jobMut).2 = ApplyOut.terminal effects →
      (finishTick sh pl st jobMut).1.is_complete = true ∧
      ((finishTick sh pl st jobMut).1.status = "COMPLETED" ∨
        (finishTick sh pl st jobMut).1.status = "FAILED")) := by
  cases pl with
  | deliveryError => exact absurd rfl hpl
  | ok =>
    rw [finishTick]
    split_ifs with ht hcs hf <;>
      simp_all [show_completion_notification, show_failure_notification]
  | unavailable =>
    rw [finishTick]
    split_ifs with ht hcs hf <;>
      simp_all [show_completion_notification, show_failure_notification]

/-- The same behaviour lifted over the whole record update of a tick: the
id survives, a raised or nonterminal outcome keeps the completion flag,
and a terminal outcome sets it with a terminal status in place. -/
theorem tickApply_spec (sh : Bool) (pl : PlyerOutcome) (job : RemoteRenderJob)
    (body : JsonValue) (hpl : pl ≠ PlyerOutcome.deliveryError) :
    (tickApply sh pl job body).1.job_id = job.job_id ∧
    ((tickApply sh pl job body).2 = ApplyOut.raised →
      (tickApply sh pl job body).1.is_complete = job.is_complete) ∧
    ((tickApply sh pl job body).2 = ApplyOut.nonterminal →
      (tickApply sh pl job body).1.is_complete = job.is_complete) ∧
    (∀ effects, (tickApply sh pl job body).2 = ApplyOut.terminal effects →
      (tickApply sh pl job body).1.is_complete = true ∧
      ((tickApply sh pl job body).1.status = "COMPLETED" ∨
        (tickApply sh pl job body).1.status = "FAILED")) := by
  cases body with
  | obj fields =>
    rw [tickApply]
    cases hsv : (dictGet fields "status").getD (.str "UNKNOWN") with
    | str new_status =>
      dsimp only
      cases hp : jsonToInt ((dictGet fields "progress").getD (.int 0)) with
      | some p =>
        dsimp only
        cases he : dictGet fields "errorMessage" with
        | some v =>
          dsimp only
          by_cases htr : jsonTruthy v = true
          · rw [if_pos htr]
            cases v with
            | str msg => exact finishTick_case sh pl new_status job _ hpl rfl rfl rfl
            | nullv => simp
            | bool b => simp
            | int n => simp
            | obj fs => simp
            | arr es => simp
          · rw [if_neg htr]
            exact finishTick_case sh pl new_status job _ hpl rfl rfl rfl
        | none =>
          dsimp only
          exact finishTick_case sh pl new_status job _ hpl rfl rfl rfl
      | none => simp
    | nullv => simp
    | bool b => simp
    | int n => simp
    | obj fs => simp
    | arr es => simp
  | nullv => simp [tickApply]
  | bool b => simp [tickApply]
  | int n => simp [tickApply]
  | str st => simp [tickApply]
  | arr es => simp [tickApply]

/-- One loop iteration preserves the forward completion invariant across
the whole store, and while the loop keeps going the monitored record stays
incomplete — provided notification delivery does not itself raise. -/
theorem tick_preserves_fwdInv (s : ServerIntegratedSettings) (job_id : String)
    (r : PollResponse) (pl : PlyerOutcome)
    (hpl : pl ≠ PlyerOutcome.deliveryError)
    (hinv : ∀ j ∈ s.jobs, fwdInv j)
    (hmon : ((findJob s.jobs job_id).all fun j => !j.is_complete) = true) :
    (∀ j ∈ (monitor_job_tick s job_id r pl).jobs, fwdInv j) ∧
    ((monitor_job_tick s job_id r pl).outcome ≠ TickOutcome.stopped →
      ((findJob (monitor_job_tick s job_id r pl).jobs job_id).all
        fun j => !j.is_complete) = true) := by
  cases hfind : findJob s.jobs job_id with
  | none =>
    rw [monitor_job_tick, hfind]
    exact ⟨hinv, fun h => absurd rfl h⟩
  | some job =>
    have hjc : job.is_complete = false := by
      rw [hfind, Option.all_some] at hmon
      simpa using hmon
    have hall : ((findJob s.jobs job_id).all fun j => !j.is_complete) = true := by
      rw [hfind, Option.all_some]
      simp [hjc]
    cases r with
    | netError =>
      rw [monitor_job_tick, hfind]
      exact ⟨hinv, fun _ => hall⟩
    | resp code body? =>
      rw [monitor_job_tick, hfind]
      dsimp only
      by_cases hcode : code = 200
      · rw [if_pos hcode]
        cases body? with
        | none => exact ⟨hinv, fun _ => hall⟩
        | some body =>
          dsimp only
          obtain ⟨hid, hraised, hnont, hterm⟩ :=
            tickApply_spec s.show_notifications pl job body hpl
          rcases hta : tickApply s.show_notifications pl job body with ⟨job', out⟩
          rw [hta] at hid hraised hnont hterm
          have hmem : ∀ j ∈ updateFirst s.jobs job_id (fun _ => job'),
              fwdInv job' → fwdInv j := by
            intro j hj hj'
            rcases mem_updateFirst hj with hj1 | ⟨j0, _, hj2⟩
            · exact hinv j hj1
            · rw [hj2]; exact hj'
          have hfind' : findJob (updateFirst s.jobs job_id (fun _ => job')) job_id =
              some job' := findJob_updateFirst hfind hid
          cases out with
          | raised =>
            have hic : job'.is_complete = job.is_complete := hraised rfl
            refine ⟨fun j hj => hmem j hj ?_, fun _ => ?_⟩
            · intro hc; rw [hic, hjc] at hc; cases hc
            · rw [hfind', Option.all_some]; simp [hic, hjc]
          | nonterminal =>
            have hic : job'.is_complete = job.is_complete := hnont rfl
            refine ⟨fun j hj => hmem j hj ?_, fun _ => ?_⟩
            · intro hc; rw [hic, hjc] at hc; cases hc
            · rw [hfind', Option.all_some]; simp [hic, hjc]
          | terminal effects =>
            obtain ⟨hic, hstat⟩ := hterm effects rfl
            exact ⟨fun j hj => hmem j hj (fun _ => hstat), fun h => absurd rfl h⟩
      · rw [if_neg hcode]
        exact ⟨hinv, fun _ => hall⟩

theorem run_preserves_fwdInv (job_id : String) (env : List PollEnv) :
    ∀ s : ServerIntegratedSettings,
      (∀ e ∈ env, e.plyer ≠ PlyerOutcome.deliveryError) →
      (∀ j ∈ s.jobs, fwdInv j) →
      ((findJob s.jobs job_id).all fun j => !j.is_complete) = true →
      ∀ j ∈ (monitor_job_run job_id s env).1, fwdInv j := by
  induction env with
  | nil => intro s _ hinv _; exact hinv
  | cons e es ih =>
    intro s hpl hinv hmon
    have hpl0 : e.plyer ≠ PlyerOutcome.deliveryError := hpl e (List.mem_cons_self e es)
    obtain ⟨h1, h2⟩ := tick_preserves_fwdInv s job_id e.response e.plyer hpl0 hinv hmon
    rw [monitor_job_run]
    cases hout : (monitor_job_tick s job_id e.response e.plyer).outcome with
    | stopped => exact h1
    | continued k =>
      exact ih { s with jobs := (monitor_job_tick s job_id e.response e.plyer).jobs }
        (fun e' he' => hpl e' (List.mem_cons_of_mem e he')) h1
        (h2 (by rw [hout]; exact fun h => TickOutcome.noConfusion h))

/-- Behaviour of the terminal branch for an arbitrary plyer state: the
completion and unread-notification flags are always set; the notification
call, when it happens (every FAILED, COMPLETED only with notifications
enabled) and delivery raises, turns the tick into a caught exception after
the flags were set, and otherwise the branch breaks out of the loop with
the delivered effects. -/
theorem finishTick_terminal (sh : Bool) (pl : PlyerOutcome) (st : String)
    (jb : RemoteRenderJob) (hterm : st = "COMPLETED" ∨ st = "FAILED") :
    (finishTick sh pl st jb).1 = { jb with is_complete := true, has_notification := true } ∧
    (if pl = PlyerOutcome.deliveryError ∧ (st = "FAILED" ∨ sh = true) then
      (finishTick sh pl st jb).2 = ApplyOut.raised
    else ∃ effects, (finishTick sh pl st jb).2 = ApplyOut.terminal effects ∧
      (effects ≠ [] ↔ (st = "FAILED" ∨ sh = true))) := by
  rcases hterm with hC | hF
  · subst hC
    rw [finishTick]
    cases pl with
    | ok => split_ifs with h1 h2 h3 <;> simp_all [show_completion_notification,
        show_failure_notification, show_blender_notification]
    | unavailable => split_ifs with h1 h2 h3 <;> simp_all [show_completion_notification,
        show_failure_notification, show_blender_notification]
    | deliveryError => split_ifs with h1 h2 h3 <;> simp_all [show_completion_notification,
        show_failure_notification, show_blender_notification]
  · subst hF
    rw [finishTick]
    cases pl with
    | ok => split_ifs with h1 h2 h3 <;> simp_all [show_completion_notification,
        show_failure_notification, show_blender_notification]
    | unavailable => split_ifs with h1 h2 h3 <;> simp_all [show_completion_notification,
        show_failure_notification, show_blender_notification]
    | deliveryError => split_ifs with h1 h2 h3 <;> simp_all [show_completion_notification,
        show_failure_notification, show_blender_notification]

/-- On a 200 body whose status is a string and whose progress and
errorMessage fields are well formed, the record update of a tick reaches
the terminal branch with the status, clamped progress and error message
written into the record. -/
theorem tickApply_terminal_eq (sh : Bool) (pl : PlyerOutcome) (job : RemoteRenderJob)
    (fields : List (String × JsonValue)) (st : String) (p : Int)
    (hst : dictGet fields "status" = some (JsonValue.str st))
    (hp : jsonToInt ((dictGet fields "progress").getD (JsonValue.int 0)) = some p)
    (herr : errFieldOk (dictGet fields "errorMessage")) :
    tickApply sh pl job (JsonValue.obj fields) =
      finishTick sh pl st
        { job with
            status := st, progress := clampProgress p,
            error_message := errMsgAfter job.error_message (dictGet fields "errorMessage") } := by
  rw [tickApply, hst, Option.getD_some]
  dsimp only
  rw [hp]
  dsimp only
  cases hem : dictGet fields "errorMessage" with
  | none => dsimp only [errMsgAfter]
  | some v =>
    rw [hem] at herr
    dsimp only
    cases v with
    | str msg =>
      by_cases hmsg : (msg != "") = true
      · rw [if_pos (show jsonTruthy (JsonValue.str msg) = true from hmsg)]
        dsimp only [errMsgAfter]
        rw [if_pos hmsg]
      · rw [if_neg (show ¬ jsonTruthy (JsonValue.str msg) = true from hmsg)]
        dsimp only [errMsgAfter]
        rw [if_neg hmsg]
    | nullv =>
      rw [if_neg (show ¬ jsonTruthy JsonValue.nullv = true from by simp [jsonTruthy])]
      dsimp only [errMsgAfter]
    | bool b =>
      simp only [errFieldOk] at herr
      rw [if_neg (by simp [herr])]
      dsimp only [errMsgAfter]
    | int n =>
      simp only [errFieldOk] at herr
      rw [if_neg (by simp [herr])]
      dsimp only [errMsgAfter]
    | obj fs =>
      simp only [errFieldOk] at herr
      rw [if_neg (by simp [herr])]
      dsimp only [errMsgAfter]
    | arr es =>
      simp only [errFieldOk] at herr
      rw [if_neg (by simp [herr])]
      dsimp only [errMsgAfter]

/--
C1: for every settings value, submit_render_job POSTs to the preset
endpoint /api/presets/render with the preset payload shape (fileName,
quality, startFrame, endFrame, resolutionX, resolutionY, outputFormat PNG,
description) if and only if settings.render_quality is FAST or HIGH, and
otherwise POSTs to the custom endpoint /api/jobs with the custom payload
shape containing renderSettings; the choice depends only on render_quality,
independent of all other settings.
-/
theorem c1_endpoint_selection (settings : ServerIntegratedSettings) (scene : SceneRenderInfo)
    (upload_result : List (String × JsonValue)) (scene_name : String) :
    (((submit_render_job settings scene upload_result scene_name).1 =
        settings.server_url ++ "/api/presets/render" ∧
      isPresetPayload (submit_render_job settings scene upload_result scene_name).2) ↔
      (settings.render_quality = RenderQuality.FAST ∨
       settings.render_quality = RenderQuality.HIGH)) ∧
    (¬ (settings.render_quality = RenderQuality.FAST ∨
        settings.render_quality = RenderQuality.HIGH) →
      (submit_render_job settings scene upload_result scene_name).1 =
        settings.server_url ++ "/api/jobs" ∧
      isCustomPayload (submit_render_job settings scene upload_result scene_name).2) := by
  rcases hq : settings.render_quality with _ | _ | _ <;>
    simp [submit_render_job, hq, isPresetPayload, isCustomPayload, objKeys, dictGet]
/--
C2 (amended): the forward direction of the completion invariant —
is_complete implies a terminal status — holds at record creation and is
preserved by every poll tick of a monitor run (provided notification
delivery does not itself raise) and by every UI mutation; the full
both-ways invariant holds at creation and is preserved by the UI
mutations.  The backward direction can be broken by a poll tick that
writes a terminal status and then raises on a malformed progress field.
-/
theorem c2_completion_invariant :
    (∀ (result_id : Option String) (scene_name submitted_time : String),
      fullInv (newJobFromSubmit result_id scene_name submitted_time)) ∧
    (∀ (job_id : String) (env : List PollEnv) (s : ServerIntegratedSettings),
      (∀ e ∈ env, e.plyer ≠ PlyerOutcome.deliveryError) →
      (∀ j ∈ s.jobs, fwdInv j) →
      ((findJob s.jobs job_id).all fun j => !j.is_complete) = true →
      ∀ j ∈ (monitor_job_run job_id s env).1, fwdInv j) ∧
    (∀ (jobs : List RemoteRenderJob) (i : Nat),
      (∀ j ∈ jobs, fullInv j) → ∀ j ∈ clear_job jobs i, fullInv j) ∧
    (∀ jobs : List RemoteRenderJob,
      (∀ j ∈ jobs, fullInv j) → ∀ j ∈ clear_all_jobs jobs, fullInv j) ∧
    (∀ (jobs : List RemoteRenderJob) (job_id : String),
      (∀ j ∈ jobs, fullInv j) → ∀ j ∈ download_clear_badge jobs job_id, fullInv j) := by
  refine ⟨?_, ?_, ?_, ?_, ?_⟩
  · intro result_id scene_name submitted_time
    simp [fullInv, newJobFromSubmit]
  · exact fun job_id env s h1 h2 h3 => run_preserves_fwdInv job_id env s h1 h2 h3
  · intro jobs i hinv j hj
    exact hinv j (List.mem_of_mem_eraseIdx hj)
  · intro jobs hinv j hj
    rw [clear_all_jobs_eq_filter] at hj
    exact hinv j (List.mem_of_mem_filter hj)
  · intro jobs job_id hinv j hj
    rcases mem_updateFirst hj with h | ⟨j0, hj0, rfl⟩
    · exact hinv j h
    · simpa [fullInv] using hinv j0 hj0

/--
C2 counterexample: starting from a store satisfying the full two-way invariant, a
poll tick whose body is status COMPLETED with a null progress writes the
terminal status, raises at int(progress), and leaves is_complete false —
so the claimed two-way invariant does not survive a tick that fails
partway.
-/
theorem c2_counterexample_partial_tick :
    (∀ j ∈ ([{ job_id := "j1", status := "RUNNING", progress := 10 }] :
        List RemoteRenderJob), fullInv j) ∧
    monitor_job_tick { jobs := [{ job_id := "j1", status := "RUNNING", progress := 10 }] }
        "j1" (PollResponse.resp 200 (some (JsonValue.obj
          [("status", JsonValue.str "COMPLETED"), ("progress", JsonValue.nullv)])))
        PlyerOutcome.ok =
      ⟨[{ job_id := "j1", status := "COMPLETED", progress := 10 }],
        TickOutcome.continued SleepKind.backoff, true, []⟩ ∧
    ¬ fullInv { job_id := "j1", status := "COMPLETED", progress := 10 } :=
  ⟨by decide, rfl, by decide⟩

/-- C2 witness: each preserved part instantiated at a concrete store. -/
theorem c2_completion_invariant_witness :
    fullInv (newJobFromSubmit (some "42") "scene.blend" "12:00") ∧
    (∀ j ∈ (monitor_job_run "j1"
        { jobs := [{ job_id := "j1", status := "RUNNING" }] }
        [⟨PollResponse.resp 200 (some (JsonValue.obj
            [("status", JsonValue.str "COMPLETED"), ("progress", JsonValue.int 100)])),
          PlyerOutcome.ok⟩]).1, fwdInv j) ∧
    (∀ j ∈ clear_job [{ job_id := "a", status := "COMPLETED", is_complete := true }] 0,
      fullInv j) ∧
    (∀ j ∈ clear_all_jobs [{ job_id := "a", status := "FAILED", is_complete := true }],
      fullInv j) ∧
    (∀ j ∈ download_clear_badge [{ job_id := "a" }] "a", fullInv j) :=
  ⟨c2_completion_invariant.1 (some "42") "scene.blend" "12:00",
   c2_completion_invariant.2.1 "j1" _ _ (by decide) (by decide) (by decide),
   c2_completion_invariant.2.2.1 _ 0 (by decide),
   c2_completion_invariant.2.2.2.1 _ (by decide),
   c2_completion_invariant.2.2.2.2 _ "a" (by decide)⟩

/--
C3 (amended): on a failing poll tick no exception escapes the loop and no
notification is emitted, but the record and interval behaviour depend on
the failure: a network error, an unparsable body, a non-object body, a
non-string status value, or an unparsable progress value are caught by the
exception handler and the next tick follows the longer ~10s backoff — with
the record unchanged except that a malformed progress leaves the already
assigned status in place; a non-200 HTTP status, however, mutates nothing
and falls through to the normal ~5s interval, not the backoff.
-/
theorem c3_failed_tick (s : ServerIntegratedSettings) (job_id : String)
    (job : RemoteRenderJob) (pl : PlyerOutcome)
    (hfind : findJob s.jobs job_id = some job) :
    (monitor_job_tick s job_id PollResponse.netError pl =
      ⟨s.jobs, TickOutcome.continued SleepKind.backoff, true, []⟩) ∧
    (∀ code body?, code ≠ 200 →
      monitor_job_tick s job_id (PollResponse.resp code body?) pl =
        ⟨s.jobs, TickOutcome.continued SleepKind.normal, true, []⟩) ∧
    (monitor_job_tick s job_id (PollResponse.resp 200 none) pl =
      ⟨s.jobs, TickOutcome.continued SleepKind.backoff, true, []⟩) ∧
    (∀ body, objKeys body = none →
      monitor_job_tick s job_id (PollResponse.resp 200 (some body)) pl =
        ⟨s.jobs, TickOutcome.continued SleepKind.backoff, true, []⟩) ∧
    (∀ fields v, dictGet fields "status" = some v → jsonStr? v = none →
      monitor_job_tick s job_id (PollResponse.resp 200 (some (JsonValue.obj fields))) pl =
        ⟨s.jobs, TickOutcome.continued SleepKind.backoff, true, []⟩) ∧
    (∀ fields st pv, dictGet fields "status" = some (JsonValue.str st) →
      dictGet fields "progress" = some pv → jsonToInt pv = none →
      monitor_job_tick s job_id (PollResponse.resp 200 (some (JsonValue.obj fields))) pl =
        ⟨updateFirst s.jobs job_id (fun _ => { job with status := st }),
          TickOutcome.continued SleepKind.backoff, true, []⟩) := by
  refine ⟨?_, ?_, ?_, ?_, ?_, ?_⟩
  · rw [monitor_job_tick, hfind]
  · intro code body? hcode
    rw [monitor_job_tick, hfind]
    dsimp only
    rw [if_neg hcode]
  · rw [monitor_job_tick, hfind]
    dsimp only
    rw [if_pos rfl]
  · intro body hbody
    rw [monitor_job_tick, hfind]
    dsimp only
    rw [if_pos rfl]
    cases body with
    | obj fields => simp [objKeys] at hbody
    | nullv => dsimp only [tickApply]; rw [updateFirst_found_id hfind]
    | bool b => dsimp only [tickApply]; rw [updateFirst_found_id hfind]
    | int n => dsimp only [tickApply]; rw [updateFirst_found_id hfind]
    | str st => dsimp only [tickApply]; rw [updateFirst_found_id hfind]
    | arr es => dsimp only [tickApply]; rw [updateFirst_found_id hfind]
  · intro fields v hv hvs
    rw [monitor_job_tick, hfind]
    dsimp only
    rw [if_pos rfl, tickApply, hv]
    cases v with
    | str st => simp [jsonStr?] at hvs
    | nullv => dsimp only [Option.getD]; rw [updateFirst_found_id hfind]
    | bool b => dsimp only [Option.getD]; rw [updateFirst_found_id hfind]
    | int n => dsimp only [Option.getD]; rw [updateFirst_found_id hfind]
    | obj fs => dsimp only [Option.getD]; rw [updateFirst_found_id hfind]
    | arr es => dsimp only [Option.getD]; rw [updateFirst_found_id hfind]
  · intro fields st pv hst hp hpv
    rw [monitor_job_tick, hfind]
    dsimp only
    rw [if_pos rfl, tickApply, hst, hp]
    dsimp only [Option.getD]
    rw [hpv]

/--
C3 counterexample: a poll tick that receives HTTP 500 leaves the record
unchanged and raises nothing, but schedules the next tick after the normal
~5s interval — where the claim requires the longer ~10s backoff interval.
-/
theorem c3_counterexample_http500 :
    monitor_job_tick { jobs := [{ job_id := "j1", status := "RUNNING" }] } "j1"
        (PollResponse.resp 500 none) PlyerOutcome.ok =
      ⟨[{ job_id := "j1", status := "RUNNING" }],
        TickOutcome.continued SleepKind.normal, true, []⟩ :=
  rfl

/-- C3 witness: the network-error and HTTP-500 parts at a one-job store. -/
theorem c3_failed_tick_witness :
    findJob [{ job_id := "j1", status := "RUNNING" }] "j1" =
      some { job_id := "j1", status := "RUNNING" } ∧
    monitor_job_tick { jobs := [{ job_id := "j1", status := "RUNNING" }] } "j1"
        PollResponse.netError PlyerOutcome.ok =
      ⟨[{ job_id := "j1", status := "RUNNING" }],
        TickOutcome.continued SleepKind.backoff, true, []⟩ ∧
    monitor_job_tick { jobs := [{ job_id := "j1", status := "RUNNING" }] } "j1"
        (PollResponse.resp 503 none) PlyerOutcome.ok =
      ⟨[{ job_id := "j1", status := "RUNNING" }],
        TickOutcome.continued SleepKind.normal, true, []⟩ :=
  ⟨by decide,
   (c3_failed_tick { jobs := [{ job_id := "j1", status := "RUNNING" }] } "j1"
      { job_id := "j1", status := "RUNNING" } PlyerOutcome.ok (by decide)).1,
   (c3_failed_tick { jobs := [{ job_id := "j1", status := "RUNNING" }] } "j1"
      { job_id := "j1", status := "RUNNING" } PlyerOutcome.ok (by decide)).2.1
      503 none (by decide)⟩

/--
C4 (amended): on a poll tick whose 200 response carries a terminal status
(with well-formed progress and errorMessage fields), the poller sets the
completion flag and the unread-notification flag on the record, recording
the status, the clamped progress and any nonempty error-message string;
the notification sink is invoked for every FAILED status and, for
COMPLETED, exactly when desktop notifications are enabled; the loop then
terminates — unless the invoked delivery call itself raises a
non-ImportError, in which case the flags stay set, nothing is delivered,
and the loop keeps going after the ~10s backoff.
-/
theorem c4_terminal_tick (s : ServerIntegratedSettings) (job_id st : String)
    (job : RemoteRenderJob) (fields : List (String × JsonValue)) (p : Int)
    (pl : PlyerOutcome)
    (hfind : findJob s.jobs job_id = some job)
    (hst : dictGet fields "status" = some (JsonValue.str st))
    (hterm : st = "COMPLETED" ∨ st = "FAILED")
    (hp : jsonToInt ((dictGet fields "progress").getD (JsonValue.int 0)) = some p)
    (herr : errFieldOk (dictGet fields "errorMessage")) :
    (monitor_job_tick s job_id (PollResponse.resp 200 (some (JsonValue.obj fields))) pl).jobs
      = updateFirst s.jobs job_id (fun _ =>
        { job with
            status := st, progress := clampProgress p,
            error_message := errMsgAfter job.error_message (dictGet fields "errorMessage"),
            is_complete := true, has_notification := true }) ∧
    ((monitor_job_tick s job_id (PollResponse.resp 200 (some (JsonValue.obj fields))) pl).notifications
        ≠ [] ↔
      (pl ≠ PlyerOutcome.deliveryError ∧ (st = "FAILED" ∨ s.show_notifications = true))) ∧
    (if pl = PlyerOutcome.deliveryError ∧ (st = "FAILED" ∨ s.show_notifications = true) then
      (monitor_job_tick s job_id (PollResponse.resp 200 (some (JsonValue.obj fields))) pl).outcome
        = TickOutcome.continued SleepKind.backoff
    else
      (monitor_job_tick s job_id (PollResponse.resp 200 (some (JsonValue.obj fields))) pl).outcome
        = TickOutcome.stopped) := by
  rw [monitor_job_tick, hfind]
  dsimp only
  rw [if_pos rfl,
    tickApply_terminal_eq s.show_notifications pl job fields st p hst hp herr]
  obtain ⟨h1, h2⟩ := finishTick_terminal s.show_notifications pl st
    { job with
        status := st, progress := clampProgress p,
        error_message := errMsgAfter job.error_message (dictGet fields "errorMessage") }
    hterm
  rcases hft : finishTick s.show_notifications pl st
      { job with
          status := st, progress := clampProgress p,
          error_message := errMsgAfter job.error_message (dictGet fields "errorMessage") }
    with ⟨job2, out⟩
  rw [hft] at h1 h2
  dsimp only at h1
  by_cases hcond : pl = PlyerOutcome.deliveryError ∧ (st = "FAILED" ∨ s.show_notifications = true)
  · rw [if_pos hcond] at h2
    dsimp only at h2
    subst h2
    dsimp only
    refine ⟨by rw [h1], by simp [hcond.1], ?_⟩
    rw [if_pos hcond]
  · rw [if_neg hcond] at h2
    obtain ⟨effects, hout, hiff⟩ := h2
    dsimp only at hout
    subst hout
    dsimp only
    refine ⟨by rw [h1], ?_, ?_⟩
    · constructor
      · intro h
        exact ⟨fun hpd => hcond ⟨hpd, hiff.mp h⟩, hiff.mp h⟩
      · intro h
        exact hiff.mpr h.2
    · rw [if_neg hcond]

/--
C4 counterexample: with desktop notifications disabled in the settings, a
poll tick that receives the terminal status COMPLETED sets the flags and
stops the loop but never invokes the notification sink — the claim
requires the sink to be invoked for every settings state.
-/
theorem c4_counterexample_muted_completion :
    monitor_job_tick
      { jobs := [{ job_id := "j1", status := "RUNNING" }],
        show_notifications := false } "j1"
      (PollResponse.resp 200 (some (JsonValue.obj
        [("status", JsonValue.str "COMPLETED"), ("progress", JsonValue.int 100)])))
      PlyerOutcome.ok =
    ⟨[{ job_id := "j1", status := "COMPLETED", progress := 100,
        is_complete := true, has_notification := true }],
      TickOutcome.stopped, true, []⟩ :=
  rfl

/-- C4 witness: a FAILED tick carrying an error message, with working
delivery. -/
theorem c4_terminal_tick_witness :
    (monitor_job_tick { jobs := [{ job_id := "j1", status := "RUNNING" }] } "j1"
      (PollResponse.resp 200 (some (JsonValue.obj
        [("status", JsonValue.str "FAILED"), ("progress", JsonValue.int 100),
         ("errorMessage", JsonValue.str "boom")])))
      PlyerOutcome.ok).jobs =
      updateFirst [{ job_id := "j1", status := "RUNNING" }] "j1" (fun _ =>
        { ({ job_id := "j1", status := "RUNNING" } : RemoteRenderJob) with
            status := "FAILED", progress := clampProgress 100,
            error_message := errMsgAfter ""
              (dictGet [("status", JsonValue.str "FAILED"), ("progress", JsonValue.int 100),
                ("errorMessage", JsonValue.str "boom")] "errorMessage"),
            is_complete := true, has_notification := true }) ∧
    ((monitor_job_tick { jobs := [{ job_id := "j1", status := "RUNNING" }] } "j1"
      (PollResponse.resp 200 (some (JsonValue.obj
        [("status", JsonValue.str "FAILED"), ("progress", JsonValue.int 100),
         ("errorMessage", JsonValue.str "boom")])))
      PlyerOutcome.ok).notifications ≠ [] ↔
      (PlyerOutcome.ok ≠ PlyerOutcome.deliveryError ∧
        (("FAILED" : String) = "FAILED" ∨
          ({ jobs := [{ job_id := "j1", status := "RUNNING" }] } :
            ServerIntegratedSettings).show_notifications = true))) ∧
    (if PlyerOutcome.ok = PlyerOutcome.deliveryError ∧
        (("FAILED" : String) = "FAILED" ∨
          ({ jobs := [{ job_id := "j1", status := "RUNNING" }] } :
            ServerIntegratedSettings).show_notifications = true) then
      (monitor_job_tick { jobs := [{ job_id := "j1", status := "RUNNING" }] } "j1"
        (PollResponse.resp 200 (some (JsonValue.obj
          [("status", JsonValue.str "FAILED"), ("progress", JsonValue.int 100),
           ("errorMessage", JsonValue.str "boom")])))
        PlyerOutcome.ok).outcome = TickOutcome.continued SleepKind.backoff
    else
      (monitor_job_tick { jobs := [{ job_id := "j1", status := "RUNNING" }] } "j1"
        (PollResponse.resp 200 (some (JsonValue.obj
          [("status", JsonValue.str "FAILED"), ("progress", JsonValue.int 100),
           ("errorMessage", JsonValue.str "boom")])))
        PlyerOutcome.ok).outcome = TickOutcome.stopped) :=
  c4_terminal_tick { jobs := [{ job_id := "j1", status := "RUNNING" }] } "j1" "FAILED"
    { job_id := "j1", status := "RUNNING" }
    [("status", JsonValue.str "FAILED"), ("progress", JsonValue.int 100),
     ("errorMessage", JsonValue.str "boom")] 100
    PlyerOutcome.ok (by decide) rfl (Or.inr rfl) rfl trivial

/--
C5: for every input path, after upload_file returns — success, server error
status, or exception at any point — the file at file_path no longer exists:
the finally block deletes it on every exit path.
-/
theorem c5_upload_always_deletes (fs : List String) (file_path : String)
    (r : UploadResponse) :
    file_path ∉ (upload_file fs file_path r).2 := by
  by_cases h : file_path ∈ fs <;>
    simp [upload_file, h, fsRemove, List.mem_filter]

/--
C6: on a poll tick whose job id is no longer in the store, the loop breaks
cleanly and silently: no request is made, no record is mutated, no
notification is emitted, and no error is raised.
-/
theorem c6_removed_job_stops (s : ServerIntegratedSettings) (job_id : String)
    (r : PollResponse) (pl : PlyerOutcome)
    (h : findJob s.jobs job_id = none) :
    monitor_job_tick s job_id r pl =
      ⟨s.jobs, TickOutcome.stopped, false, []⟩ := by
  unfold monitor_job_tick
  rw [h]

/-- C6 witness: a store whose only job has a different id. -/
theorem c6_removed_job_stops_witness :
    findJob [{ job_id := "other" }] "j1" = none ∧
    monitor_job_tick { jobs := [{ job_id := "other" }] } "j1" PollResponse.netError
        PlyerOutcome.ok =
      ⟨[{ job_id := "other" }], TickOutcome.stopped, false, []⟩ :=
  ⟨by decide, c6_removed_job_stops { jobs := [{ job_id := "other" }] } "j1"
    PollResponse.netError PlyerOutcome.ok (by decide)⟩

/--
C7 (amended): the notification helpers swallow an unavailable notification
channel — the ImportError of the optional plyer module — and redirect to
the in-Blender fallback message; but only ImportError is caught, so an
exception raised by the delivery call itself propagates to the caller.
With delivery not raising, neither helper raises.
-/
theorem c7_notification_no_raise (scene_name error_message : String) (pl : PlyerOutcome)
    (h : pl ≠ PlyerOutcome.deliveryError) :
    (∃ effects, show_completion_notification scene_name pl = .ok effects) ∧
    (∃ effects, show_failure_notification scene_name error_message pl = .ok effects) := by
  cases pl with
  | ok => exact ⟨⟨_, rfl⟩, ⟨_, rfl⟩⟩
  | unavailable => exact ⟨⟨_, rfl⟩, ⟨_, rfl⟩⟩
  | deliveryError => exact absurd rfl h

/-- C7 witness: the ImportError fallback path of both helpers. -/
theorem c7_notification_no_raise_witness :
    (∃ effects, show_completion_notification "scene.blend" PlyerOutcome.unavailable =
      .ok effects) ∧
    (∃ effects, show_failure_notification "scene.blend" "boom" PlyerOutcome.unavailable =
      .ok effects) :=
  c7_notification_no_raise "scene.blend" "boom" PlyerOutcome.unavailable (by decide)

/--
C7 counterexample: when the delivery call itself raises — plyer is
importable but notification.notify fails, which is not an ImportError —
the exception propagates to the caller instead of being swallowed.
-/
theorem c7_counterexample_delivery_raises :
    show_completion_notification "scene.blend" PlyerOutcome.deliveryError =
      .error () := by
  rfl

/--
C8 (amended): upload_file returns a parsed result exactly when the file
could be read, the response arrived with status 200 or 201, and its body
parsed as JSON; every other outcome — any other status code, 2xx included,
a transport failure, or an unparsable body — yields no result.
-/
theorem c8_upload_success_condition (fs : List String) (file_path : String)
    (r : UploadResponse) :
    (upload_file fs file_path r).1.isSome = true ↔
      (file_path ∈ fs ∧ ∃ code body, r = UploadResponse.resp code (some body) ∧
        (code = 200 ∨ code = 201)) := by
  by_cases h : file_path ∈ fs
  · cases r with
    | raised => simp [upload_file, h]
    | resp code body =>
      cases body <;> by_cases hc : code = 200 ∨ code = 201 <;>
        simp_all [upload_file]
  · simp [upload_file, h]

/--
C8 counterexample: with the file present, a 204 response — a 2xx success
status — with a JSON body still yields no result, where the claim says
every 2xx response status succeeds.
-/
theorem c8_counterexample_204 :
    (upload_file ["f.blend"] "f.blend"
      (UploadResponse.resp 204 (some (JsonValue.obj [("fileName", JsonValue.str "f.blend")])))).1
      = none := by
  rfl
/--
C9: clearing all completed jobs removes exactly the records whose
completion flag is set (one pass over the list), and the operation is
idempotent: a second application is a no-op.
-/
theorem c9_clear_all_completed (jobs : List RemoteRenderJob) :
    clear_all_jobs jobs = jobs.filter (fun j => !j.is_complete) ∧
    clear_all_jobs (clear_all_jobs jobs) = clear_all_jobs jobs := by
  refine ⟨clear_all_jobs_eq_filter jobs, ?_⟩
  rw [clear_all_jobs_eq_filter jobs,
    clear_all_jobs_eq_filter (jobs.filter (fun j => !j.is_complete)), List.filter_filter]
  simp

/--
C10: the record created by a successful submission has the
unread-notification flag already true — the declared property default,
which the submission code never clears — while the job is not complete, so
the fresh record immediately raises the new-jobs badge count by one.
-/
theorem c10_fresh_job_badge (jobs : List RemoteRenderJob) (result_id : Option String)
    (scene_name submitted_time : String) :
    (newJobFromSubmit result_id scene_name submitted_time).has_notification = true ∧
    (newJobFromSubmit result_id scene_name submitted_time).is_complete = false ∧
    new_count (submit_adds_job jobs result_id scene_name submitted_time) =
      new_count jobs + 1 := by
  refine ⟨rfl, rfl, ?_⟩
  simp [new_count, submit_adds_job, newJobFromSubmit, List.filter_append]
